import Mathlib

/-!
Web console component installer

A shallow embedding of `pkg/oc/bootstrap/clusterup/components/web-console/web_console.go`
and the properties of its configuration patch, parameter map and readiness predicate.

Conventions of the embedding:

* a Go `string` is a Lean `String`; `len s` is its byte length, `s + t` is `s ++ t`;
* a Go `[]byte` is carried as the string holding the same bytes, so `string(b)` is `b`;
* a Go map is an association list read by first match (`mapGet`) and written by
  replace-or-append (`mapSet`);
* Go `int` / `int32` values are integers; they are only compared and printed here;
* the collaborators of `Install` (file system, client construction, YAML codec, image
  template expansion, template installation) are fields of `Env`.
-/

namespace WebConsole

/-! ## Go values -/

/-- Bytes of a Go `[]byte`, carried as the string with the same bytes. -/
abbrev Bytes := String

/-- Go `len(s)` on a string: the number of bytes. -/
def len (s : String) : Nat := s.utf8ByteSize

/-- Go errors that occur in the installer: an error handed back by a collaborator, a cluster
API status error with its reason, and the errors of `pkg/oc/errors` built by
`errors.NewError(msg)` and `errors.NewError(msg).WithCause(cause)`. -/
inductive GoError where
  | external (msg : String)
  | apiStatus (reason : String) (msg : String)
  | newError (msg : String)
  | withCause (msg : String) (cause : GoError)
  deriving DecidableEq, Repr

/-- Cluster API `errors.IsNotFound`: a status error whose reason is `NotFound`. -/
def GoError.isNotFound : GoError → Bool
  | .apiStatus reason _ => reason == "NotFound"
  | _ => false

/-- Go `m[k]` in its two-result form on a map held as an association list. -/
def mapGet {κ α : Type} [DecidableEq κ] : List (κ × α) → κ → Option α
  | [], _ => none
  | (k', v) :: rest, k => if k' = k then some v else mapGet rest k

/-- Go `m[k] = v` on a map held as an association list: the entry of `k` is replaced where it
stands, a new key is added. -/
def mapSet {κ α : Type} [DecidableEq κ] : List (κ × α) → κ → α → List (κ × α)
  | [], k, v => [(k, v)]
  | (k', v') :: rest, k, v => if k' = k then (k', v) :: rest else (k', v') :: mapSet rest k v

/-- Keys of a map held as an association list. -/
def mapKeys {κ α : Type} (m : List (κ × α)) : List κ := m.map Prod.fst

/-! ## YAML documents as decoded by `yaml.v2` -/

/-- Scalars that `yaml.v2` stores in an `interface{}`; these are also the possible keys of a
`map[interface{}]interface{}`. A float is carried by its bit pattern. -/
inductive Scalar where
  | null
  | bool (b : Bool)
  | int (i : Int)
  | float (bits : Nat)
  | str (s : String)
  deriving DecidableEq, Repr

/-- A value held in an `interface{}` after `yaml.Unmarshal`: a scalar, a `[]interface{}` or a
`map[interface{}]interface{}`. -/
inductive Value where
  | scalar (s : Scalar)
  | seq (items : List Value)
  | map (entries : List (Scalar × Value))

/-- Go `map[interface{}]interface{}`. -/
abbrev YamlMap := List (Scalar × Value)

/-- Go `map[string]interface{}`, the type of `consoleConfig`. -/
abbrev ConfigDocument := List (String × Value)

/-- A Go `string` stored in an `interface{}`. -/
def Value.ofString (s : String) : Value := .scalar (.str s)

/-- A Go `string` used as key of a `map[interface{}]interface{}`. -/
def key (s : String) : Scalar := .str s

/-! ## The component -/

/-- Constant `consoleNamespace`. -/
def consoleNamespace : String := "openshift-web-console"

/-- Struct `WebConsoleComponentOptions`. -/
structure WebConsoleComponentOptions where
  OCImage : String
  MasterConfigDir : String
  ImageFormat : String
  PublicMasterURL : String
  PublicConsoleURL : String
  PublicLoggingURL : String
  PublicMetricsURL : String
  ServerLogLevel : Int
  deriving DecidableEq, Repr

/-- Method `Name`. -/
def WebConsoleComponentOptions.Name (_c : WebConsoleComponentOptions) : String :=
  "openshift-web-console"

/-- The type assertion `consoleConfig["clusterInfo"].(map[interface{}]interface{})`: the map
when the key is present and holds a mapping, `none` when `ok` is false. -/
def clusterInfoOf (consoleConfig : ConfigDocument) : Option YamlMap :=
  match mapGet consoleConfig "clusterInfo" with
  | some (.map clusterInfo) => some clusterInfo
  | _ => none

/-- The four assignments to `clusterInfo` in `Install`. -/
def patchClusterInfo (c : WebConsoleComponentOptions) (clusterInfo : YamlMap) : YamlMap :=
  let clusterInfo := mapSet clusterInfo (key "consolePublicURL")
    (Value.ofString (c.PublicConsoleURL ++ "/"))
  let clusterInfo := mapSet clusterInfo (key "masterPublicURL") (Value.ofString c.PublicMasterURL)
  let clusterInfo :=
    if len c.PublicLoggingURL > 0 then
      mapSet clusterInfo (key "loggingPublicURL") (Value.ofString c.PublicLoggingURL)
    else clusterInfo
  let clusterInfo :=
    if len c.PublicMetricsURL > 0 then
      mapSet clusterInfo (key "metricsPublicURL") (Value.ofString c.PublicMetricsURL)
    else clusterInfo
  clusterInfo

/-- The step "update config values" of `Install`: the type assertion, its error, and the
assignments. `clusterInfo` aliases the map stored in `consoleConfig`, so the assignments are
seen through `consoleConfig["clusterInfo"]`. -/
def updateConfigValues (c : WebConsoleComponentOptions) (consoleConfig : ConfigDocument) :
    Except GoError ConfigDocument :=
  match clusterInfoOf consoleConfig with
  | none => .error (.newError "cannot read clusterInfo in web console config")
  | some clusterInfo =>
    .ok (mapSet consoleConfig "clusterInfo" (.map (patchClusterInfo c clusterInfo)))

/-! ## Collaborators of `Install` -/

/-- Result of `kclientcmd.RESTConfigFromKubeConfig`. -/
structure RestConfig where
  host : String
  deriving DecidableEq, Repr

/-- Result of `kubernetes.NewForConfig`. -/
structure KubeClient where
  config : RestConfig
  deriving DecidableEq, Repr

/-- Argument `dockerClient` of `Install`; it is only handed on. -/
structure DockerClient where
  endpoint : String
  deriving DecidableEq, Repr

/-- The part of a deployment's status read by the readiness check (`int32`). -/
structure DeploymentStatus where
  ReadyReplicas : Int
  deriving DecidableEq, Repr

/-- The part of an `appsv1.Deployment` read by the readiness check. -/
structure Deployment where
  Status : DeploymentStatus
  deriving DecidableEq, Repr

/-- What `kubeClient.AppsV1().Deployments(namespace).Get(name, metav1.GetOptions{})` answers
at the moment of the call, as a function of the client, the namespace and the name. -/
abbrev DeploymentLookup := KubeClient → String → String → Except GoError Deployment

/-- Struct `variable.ImageTemplate` of `pkg/cmd/util/variable`. `Install` assigns `Format` and
`Latest`; the remaining field keeps what `NewDefaultImageTemplate` put there. -/
structure ImageTemplate where
  Format : String
  Latest : Bool
  EnvFormat : String
  deriving DecidableEq, Repr

/-- The fields of `componentinstall.Template` that `Install` sets. -/
structure Template where
  Name : String
  Namespace : String
  InstallTemplate : Bytes
  WaitCondition : DeploymentLookup → Bool × Option GoError

/-- Go `map[string]string`, the type of `params`. -/
abbrev Params := List (String × String)

/-- The collaborators of `Install`, one field per call it makes outside its own file. -/
structure Env where
  /-- Call `ioutil.ReadFile(path.Join(dir, name))`. -/
  readFile : String → String → Except GoError Bytes
  /-- Call `kclientcmd.RESTConfigFromKubeConfig`. -/
  restConfigFromKubeConfig : Bytes → Except GoError RestConfig
  /-- Call `kubernetes.NewForConfig`. -/
  newForConfig : RestConfig → Except GoError KubeClient
  /-- Call `bootstrap.MustAsset`, on the names of embedded assets. -/
  mustAsset : String → Bytes
  /-- Call `yaml.Unmarshal` into a `map[string]interface{}`. -/
  yamlUnmarshal : Bytes → Except GoError ConfigDocument
  /-- Call `yaml.Marshal`. -/
  yamlMarshal : ConfigDocument → Except GoError Bytes
  /-- Call `variable.NewDefaultImageTemplate`. -/
  newDefaultImageTemplate : ImageTemplate
  /-- Method `ExpandOrDie`: the expanded reference, or `none` when it terminates the process. -/
  expandOrDie : ImageTemplate → String → Option String
  /-- Call `component.MakeReady(ocImage, kubeconfig, params).Install(dockerClient, logdir)`. -/
  makeReadyInstall : Template → String → Bytes → Params → DockerClient → String → Option GoError

/-- Go `fmt.Sprintf("%d", n)`: the decimal digits of the magnitude, after a `-` when `n` is
negative. -/
def sprintfD (n : Int) : String :=
  if n < 0 then "-" ++ Nat.repr n.natAbs else Nat.repr n.natAbs

/-! ## `Install` -/

/-- The closure assigned to `WaitCondition`; it captures `kubeClient`. -/
def WaitCondition (kubeClient : KubeClient) (get : DeploymentLookup) : Bool × Option GoError :=
  match get kubeClient consoleNamespace "webconsole" with
  | .error err => (false, some err)
  | .ok ds => if ds.Status.ReadyReplicas > 0 then (true, none) else (false, none)

/-- The composite literal assigned to `component`. -/
def component (env : Env) (kubeClient : KubeClient) : Template where
  Name := "webconsole"
  Namespace := consoleNamespace
  InstallTemplate := env.mustAsset "install/origin-web-console/console-template.yaml"
  WaitCondition := WaitCondition kubeClient

/-- The image template after the two assignments to `imageTemplate`. -/
def imageTemplate (env : Env) (c : WebConsoleComponentOptions) : ImageTemplate :=
  let imageTemplate := env.newDefaultImageTemplate
  let imageTemplate := { imageTemplate with Format := c.ImageFormat }
  let imageTemplate := { imageTemplate with Latest := false }
  imageTemplate

/-- The map literal assigned to `params`, given the marshalled document and the expanded
image reference. -/
def params (c : WebConsoleComponentOptions) (updatedConfig : Bytes) (image : String) : Params :=
  [("API_SERVER_CONFIG", updatedConfig),
   ("IMAGE", image),
   ("LOGLEVEL", sprintfD c.ServerLogLevel),
   ("NAMESPACE", consoleNamespace)]

/-- A call that `Install` makes to a collaborator, with its arguments. -/
inductive Call where
  | readFile (dir name : String)
  | restConfigFromKubeConfig (kubeconfig : Bytes)
  | newForConfig (restConfig : RestConfig)
  | yamlUnmarshal (asset : Bytes)
  | yamlMarshal (consoleConfig : ConfigDocument)
  | expandOrDie (imageTemplate : ImageTemplate) (componentName : String)
  | makeReadyInstall (component : Template) (ocImage : String) (kubeconfig : Bytes)
      (params : Params) (dockerClient : DockerClient) (logdir : String)

/-- Whether the call builds part of the parameter map or submits the template. -/
def Call.afterPatch : Call → Bool
  | .yamlMarshal _ => true
  | .expandOrDie _ _ => true
  | .makeReadyInstall _ _ _ _ _ _ => true
  | _ => false

/-- The parameter map handed to the installation of the template, if the call is that one. -/
def Call.submitted : Call → Option Params
  | .makeReadyInstall _ _ _ params _ _ => some params
  | _ => none

/-- How a run of `Install` ends: it returns its `error` result (`none` for `nil`), or
`ExpandOrDie` terminates the process. -/
inductive Outcome where
  | returned (err : Option GoError)
  | exited
  deriving DecidableEq, Repr

/-- A run of `Install`: the calls made to collaborators, in order, and how the run ends. -/
structure Run where
  calls : List Call
  outcome : Outcome

/-- Method `Install`. -/
def WebConsoleComponentOptions.Install (env : Env) (c : WebConsoleComponentOptions)
    (dockerClient : DockerClient) (logdir : String) : Run :=
  let t1 := [Call.readFile c.MasterConfigDir "admin.kubeconfig"]
  match env.readFile c.MasterConfigDir "admin.kubeconfig" with
  | .error err => ⟨t1, .returned (some err)⟩
  | .ok clusterAdminKubeConfigBytes =>
  let t2 := t1 ++ [Call.restConfigFromKubeConfig clusterAdminKubeConfigBytes]
  match env.restConfigFromKubeConfig clusterAdminKubeConfigBytes with
  | .error err => ⟨t2, .returned (some (.withCause "cannot obtain API clients" err))⟩
  | .ok restConfig =>
  let t3 := t2 ++ [Call.newForConfig restConfig]
  match env.newForConfig restConfig with
  | .error err => ⟨t3, .returned (some (.withCause "cannot obtain API clients" err))⟩
  | .ok kubeClient =>
  let asset := env.mustAsset "install/origin-web-console/console-config.yaml"
  let t4 := t3 ++ [Call.yamlUnmarshal asset]
  match env.yamlUnmarshal asset with
  | .error err => ⟨t4, .returned (some (.withCause "cannot parse web console config as YAML" err))⟩
  | .ok consoleConfig =>
  match updateConfigValues c consoleConfig with
  | .error err => ⟨t4, .returned (some err)⟩
  | .ok consoleConfig =>
  let t5 := t4 ++ [Call.yamlMarshal consoleConfig]
  match env.yamlMarshal consoleConfig with
  | .error err => ⟨t5, .returned (some (.withCause "cannot serialize web console config" err))⟩
  | .ok updatedConfig =>
  let t6 := t5 ++ [Call.expandOrDie (imageTemplate env c) "web-console"]
  match env.expandOrDie (imageTemplate env c) "web-console" with
  | none => ⟨t6, .exited⟩
  | some image =>
  let params := params c updatedConfig image
  let component := component env kubeClient
  ⟨t6 ++ [Call.makeReadyInstall component c.OCImage clusterAdminKubeConfigBytes params
      dockerClient logdir],
    .returned (env.makeReadyInstall component c.OCImage clusterAdminKubeConfigBytes params
      dockerClient logdir)⟩

/-! ## Inputs used to evaluate the definitions -/

/-- Options with the two required URLs only. -/
def requiredOnly : WebConsoleComponentOptions where
  OCImage := "openshift/origin:latest"
  MasterConfigDir := "/var/lib/origin/openshift.local.config/master"
  ImageFormat := "openshift/origin-${component}:${version}"
  PublicMasterURL := "https://master:8443"
  PublicConsoleURL := "https://console:8443"
  PublicLoggingURL := ""
  PublicMetricsURL := ""
  ServerLogLevel := 0

/-- Options with all four URLs and a negative log level. -/
def allFour : WebConsoleComponentOptions where
  OCImage := "openshift/origin:latest"
  MasterConfigDir := "/var/lib/origin/openshift.local.config/master"
  ImageFormat := "openshift/origin-${component}:${version}"
  PublicMasterURL := "https://master:8443"
  PublicConsoleURL := "https://console:8443"
  PublicLoggingURL := "https://kibana:8443"
  PublicMetricsURL := "https://hawkular:8443"
  ServerLogLevel := -2

/-- A `clusterInfo` mapping with the two required fields empty, an optional field set and a
field the installer does not know. -/
def sampleClusterInfo : YamlMap :=
  [(key "consolePublicURL", Value.ofString ""),
   (key "masterPublicURL", Value.ofString ""),
   (key "loggingPublicURL", Value.ofString "https://old-logging"),
   (key "logoutPublicURL", Value.ofString "")]

/-- A default document whose `clusterInfo` is `sampleClusterInfo`. -/
def sampleDocument : ConfigDocument :=
  [("apiVersion", Value.ofString "webconsole.config.openshift.io/v1"),
   ("clusterInfo", .map sampleClusterInfo),
   ("extensions", .map [(key "scriptURLs", .seq [])])]

/-- The `clusterInfo` of the end-to-end scenario: both required fields empty. -/
def endToEndClusterInfo : YamlMap :=
  [(key "consolePublicURL", Value.ofString ""), (key "masterPublicURL", Value.ofString "")]

/-- The default document of the end-to-end scenario. -/
def endToEndDocument : ConfigDocument := [("clusterInfo", .map endToEndClusterInfo)]

/-- A document without `clusterInfo`. -/
def documentWithoutClusterInfo : ConfigDocument :=
  [("apiVersion", Value.ofString "webconsole.config.openshift.io/v1")]

/-- A document whose `clusterInfo` is a string. -/
def documentWithScalarClusterInfo : ConfigDocument :=
  [("clusterInfo", Value.ofString "none")]

/-- A client handle. -/
def sampleClient : KubeClient := ⟨⟨"https://master:8443"⟩⟩

/-- The not-found status error of the cluster API for the deployment. -/
def deploymentNotFound : GoError :=
  .apiStatus "NotFound" "deployments.apps \"webconsole\" not found"

/-- A cluster in which the deployment `webconsole` of `openshift-web-console` has `n` ready
replicas and no other deployment exists. -/
def lookupWithReady (n : Int) : DeploymentLookup := fun _ ns name =>
  if ns = "openshift-web-console" ∧ name = "webconsole" then .ok ⟨⟨n⟩⟩
  else .error (.apiStatus "NotFound" "deployment not found")

/-- A cluster in which the deployment is not visible yet. -/
def lookupNotFound : DeploymentLookup := fun _ _ _ => .error deploymentNotFound

/-- Collaborators that all succeed; the embedded default document is `d`. -/
def sampleEnv (d : ConfigDocument) : Env where
  readFile := fun dir name =>
    if name = "admin.kubeconfig" then .ok ("kubeconfig in " ++ dir)
    else .error (.external "no such file")
  restConfigFromKubeConfig := fun _ => .ok ⟨"https://master:8443"⟩
  newForConfig := fun restConfig => .ok ⟨restConfig⟩
  mustAsset := fun name => "asset " ++ name
  yamlUnmarshal := fun _ => .ok d
  yamlMarshal := fun doc => .ok (String.intercalate "," (mapKeys doc))
  newDefaultImageTemplate := ⟨"openshift/origin-${component}:${version}", false, "OPENSHIFT_%s_IMAGE"⟩
  expandOrDie := fun t componentName => some (t.Format ++ " for " ++ componentName)
  makeReadyInstall := fun _ _ _ _ _ _ => none

/-- A docker client handle. -/
def sampleDocker : DockerClient := ⟨"unix:///var/run/docker.sock"⟩

/-- Value of a string of decimal digits, most significant digit first. -/
def decimalValue (digits : List Char) : Nat :=
  digits.foldl (fun acc ch => acc * 10 + (ch.toNat - 48)) 0

/-! ## Maps -/

theorem mapGet_mapSet_same {κ α : Type} [DecidableEq κ] (m : List (κ × α)) (k : κ) (v : α) :
    mapGet (mapSet m k v) k = some v := by
  induction m with
  | nil => simp [mapSet, mapGet]
  | cons e rest ih =>
    obtain ⟨k', v'⟩ := e
    by_cases hk : k' = k
    · simp [mapSet, mapGet, hk]
    · simp [mapSet, mapGet, hk, ih]

theorem mapGet_mapSet_ne {κ α : Type} [DecidableEq κ] (m : List (κ × α)) (k k₀ : κ) (v : α)
    (hne : k₀ ≠ k) : mapGet (mapSet m k v) k₀ = mapGet m k₀ := by
  induction m with
  | nil =>
    have hne' : ¬ k = k₀ := fun h => hne h.symm
    simp [mapSet, mapGet, hne']
  | cons e rest ih =>
    obtain ⟨k', v'⟩ := e
    by_cases hk : k' = k
    · subst hk
      have hne' : ¬ k' = k₀ := fun h => hne h.symm
      simp [mapSet, mapGet, hne']
    · by_cases hk₀ : k' = k₀
      · subst hk₀
        simp [mapSet, mapGet, hk]
      · simp [mapSet, mapGet, hk, hk₀, ih]

theorem mapSet_eq_self {κ α : Type} [DecidableEq κ] (m : List (κ × α)) (k : κ) (v : α)
    (hget : mapGet m k = some v) : mapSet m k v = m := by
  induction m with
  | nil => simp [mapGet] at hget
  | cons e rest ih =>
    obtain ⟨k', v'⟩ := e
    by_cases hk : k' = k
    · simp [mapGet, hk] at hget
      simp [mapSet, hk, hget]
    · simp [mapGet, hk] at hget
      simp [mapSet, hk, ih hget]

theorem mapKeys_mapSet_of_present {κ α : Type} [DecidableEq κ] (m : List (κ × α)) (k : κ)
    (v w : α) (hget : mapGet m k = some w) : mapKeys (mapSet m k v) = mapKeys m := by
  induction m with
  | nil => simp [mapGet] at hget
  | cons e rest ih =>
    obtain ⟨k', v'⟩ := e
    by_cases hk : k' = k
    · simp [mapSet, mapKeys, hk]
    · simp [mapGet, hk] at hget
      have := ih hget
      simp [mapKeys] at this
      simp [mapSet, mapKeys, hk, this]

theorem len_pos_of_ne_empty (s : String) (hne : s ≠ "") : len s > 0 := by
  obtain ⟨cs⟩ := s
  cases cs with
  | nil => exact absurd rfl hne
  | cons ch rest =>
    have hpos := Char.utf8Size_pos ch
    simp only [len, String.utf8ByteSize, String.utf8ByteSize.go]
    omega

theorem len_empty : len "" = 0 := rfl

/-! ## The configuration patch -/

theorem clusterInfoOf_eq_some (d : ConfigDocument) (ci : YamlMap) :
    clusterInfoOf d = some ci ↔ mapGet d "clusterInfo" = some (.map ci) := by
  unfold clusterInfoOf
  split
  · next ci' heq => simp [heq]
  · next hnot =>
    constructor
    · intro h; cases h
    · intro h; exact absurd h (hnot ci)

theorem updateConfigValues_of_mapping (c : WebConsoleComponentOptions) (d : ConfigDocument)
    (ci : YamlMap) (hci : clusterInfoOf d = some ci) :
    updateConfigValues c d = .ok (mapSet d "clusterInfo" (.map (patchClusterInfo c ci))) := by
  simp [updateConfigValues, hci]

theorem clusterInfoOf_mapSet (d : ConfigDocument) (ci : YamlMap) :
    clusterInfoOf (mapSet d "clusterInfo" (.map ci)) = some ci := by
  rw [clusterInfoOf_eq_some, mapGet_mapSet_same]

theorem key_ne_of_ne {s t : String} (hne : s ≠ t) : key s ≠ key t := by
  intro h
  exact hne (by simpa [key] using h)

theorem patchClusterInfo_console (c : WebConsoleComponentOptions) (ci : YamlMap) :
    mapGet (patchClusterInfo c ci) (key "consolePublicURL")
      = some (Value.ofString (c.PublicConsoleURL ++ "/")) := by
  have h1 : key "consolePublicURL" ≠ key "masterPublicURL" := key_ne_of_ne (by decide)
  have h2 : key "consolePublicURL" ≠ key "loggingPublicURL" := key_ne_of_ne (by decide)
  have h3 : key "consolePublicURL" ≠ key "metricsPublicURL" := key_ne_of_ne (by decide)
  unfold patchClusterInfo
  split_ifs <;> simp [mapGet_mapSet_ne _ _ _ _ h1, mapGet_mapSet_ne _ _ _ _ h2,
    mapGet_mapSet_ne _ _ _ _ h3, mapGet_mapSet_same]

theorem patchClusterInfo_master (c : WebConsoleComponentOptions) (ci : YamlMap) :
    mapGet (patchClusterInfo c ci) (key "masterPublicURL")
      = some (Value.ofString c.PublicMasterURL) := by
  have h2 : key "masterPublicURL" ≠ key "loggingPublicURL" := key_ne_of_ne (by decide)
  have h3 : key "masterPublicURL" ≠ key "metricsPublicURL" := key_ne_of_ne (by decide)
  unfold patchClusterInfo
  split_ifs <;> simp [mapGet_mapSet_ne _ _ _ _ h2, mapGet_mapSet_ne _ _ _ _ h3,
    mapGet_mapSet_same]

theorem patchClusterInfo_logging (c : WebConsoleComponentOptions) (ci : YamlMap) :
    mapGet (patchClusterInfo c ci) (key "loggingPublicURL")
      = if len c.PublicLoggingURL > 0 then some (Value.ofString c.PublicLoggingURL)
        else mapGet ci (key "loggingPublicURL") := by
  have h1 : key "loggingPublicURL" ≠ key "consolePublicURL" := key_ne_of_ne (by decide)
  have h2 : key "loggingPublicURL" ≠ key "masterPublicURL" := key_ne_of_ne (by decide)
  have h3 : key "loggingPublicURL" ≠ key "metricsPublicURL" := key_ne_of_ne (by decide)
  unfold patchClusterInfo
  split_ifs <;> simp [mapGet_mapSet_ne _ _ _ _ h1, mapGet_mapSet_ne _ _ _ _ h2,
    mapGet_mapSet_ne _ _ _ _ h3, mapGet_mapSet_same]

theorem patchClusterInfo_metrics (c : WebConsoleComponentOptions) (ci : YamlMap) :
    mapGet (patchClusterInfo c ci) (key "metricsPublicURL")
      = if len c.PublicMetricsURL > 0 then some (Value.ofString c.PublicMetricsURL)
        else mapGet ci (key "metricsPublicURL") := by
  have h1 : key "metricsPublicURL" ≠ key "consolePublicURL" := key_ne_of_ne (by decide)
  have h2 : key "metricsPublicURL" ≠ key "masterPublicURL" := key_ne_of_ne (by decide)
  have h3 : key "metricsPublicURL" ≠ key "loggingPublicURL" := key_ne_of_ne (by decide)
  unfold patchClusterInfo
  split_ifs <;> simp [mapGet_mapSet_ne _ _ _ _ h1, mapGet_mapSet_ne _ _ _ _ h2,
    mapGet_mapSet_ne _ _ _ _ h3, mapGet_mapSet_same]

theorem patchClusterInfo_other (c : WebConsoleComponentOptions) (ci : YamlMap) (k : Scalar)
    (h1 : k ≠ key "consolePublicURL") (h2 : k ≠ key "masterPublicURL")
    (h3 : k ≠ key "loggingPublicURL") (h4 : k ≠ key "metricsPublicURL") :
    mapGet (patchClusterInfo c ci) k = mapGet ci k := by
  unfold patchClusterInfo
  split_ifs <;> simp [mapGet_mapSet_ne _ _ _ _ h1, mapGet_mapSet_ne _ _ _ _ h2,
    mapGet_mapSet_ne _ _ _ _ h3, mapGet_mapSet_ne _ _ _ _ h4]

theorem patchClusterInfo_fixed (c : WebConsoleComponentOptions) (m : YamlMap)
    (h1 : mapGet m (key "consolePublicURL") = some (Value.ofString (c.PublicConsoleURL ++ "/")))
    (h2 : mapGet m (key "masterPublicURL") = some (Value.ofString c.PublicMasterURL))
    (h3 : len c.PublicLoggingURL > 0 →
      mapGet m (key "loggingPublicURL") = some (Value.ofString c.PublicLoggingURL))
    (h4 : len c.PublicMetricsURL > 0 →
      mapGet m (key "metricsPublicURL") = some (Value.ofString c.PublicMetricsURL)) :
    patchClusterInfo c m = m := by
  unfold patchClusterInfo
  simp only [mapSet_eq_self _ _ _ h1, mapSet_eq_self _ _ _ h2]
  by_cases hl : len c.PublicLoggingURL > 0
  · by_cases hm : len c.PublicMetricsURL > 0
    · simp only [hl, hm, if_true, mapSet_eq_self _ _ _ (h3 hl), mapSet_eq_self _ _ _ (h4 hm)]
    · simp only [hl, hm, if_true, if_false, mapSet_eq_self _ _ _ (h3 hl)]
  · by_cases hm : len c.PublicMetricsURL > 0
    · simp only [hl, hm, if_true, if_false, mapSet_eq_self _ _ _ (h4 hm)]
    · simp only [hl, hm, if_false]

theorem patchClusterInfo_idem (c : WebConsoleComponentOptions) (ci : YamlMap) :
    patchClusterInfo c (patchClusterInfo c ci) = patchClusterInfo c ci := by
  apply patchClusterInfo_fixed
  · exact patchClusterInfo_console c ci
  · exact patchClusterInfo_master c ci
  · intro hl
    rw [patchClusterInfo_logging, if_pos hl]
  · intro hm
    rw [patchClusterInfo_metrics, if_pos hm]

/-! ## Properties of the configuration patch -/

/-- C1: for every options value and every default document whose `clusterInfo` is a mapping,
the patch step of `Install` succeeds, and in the patched document `clusterInfo` is a mapping in
which `consolePublicURL` is `PublicConsoleURL` followed by one `/` and `masterPublicURL` is
`PublicMasterURL`, whatever the default document held under those keys. -/
theorem patch_sets_console_and_master (c : WebConsoleComponentOptions) (d : ConfigDocument)
    (ci : YamlMap) (hci : clusterInfoOf d = some ci) :
    ∃ d' ci', updateConfigValues c d = .ok d' ∧ clusterInfoOf d' = some ci' ∧
      mapGet ci' (key "consolePublicURL") = some (Value.ofString (c.PublicConsoleURL ++ "/")) ∧
      mapGet ci' (key "masterPublicURL") = some (Value.ofString c.PublicMasterURL) :=
  ⟨_, _, updateConfigValues_of_mapping c d ci hci, clusterInfoOf_mapSet d _,
    patchClusterInfo_console c ci, patchClusterInfo_master c ci⟩

/-- The end-to-end scenario of C1: master `https://master:8443`, console
`https://console:8443`, both fields empty in the default document. -/
theorem patch_sets_console_and_master_witness :
    clusterInfoOf endToEndDocument = some endToEndClusterInfo ∧
    ∃ d' ci', updateConfigValues requiredOnly endToEndDocument = .ok d' ∧
      clusterInfoOf d' = some ci' ∧
      mapGet ci' (key "consolePublicURL") = some (Value.ofString "https://console:8443/") ∧
      mapGet ci' (key "masterPublicURL") = some (Value.ofString "https://master:8443") :=
  ⟨rfl, patch_sets_console_and_master requiredOnly endToEndDocument endToEndClusterInfo rfl⟩

/-- C2: for every default document whose `clusterInfo` is a mapping, an empty
`PublicLoggingURL` leaves the lookup of `loggingPublicURL` in `clusterInfo` as it was in the
default document (same value, or still absent), and an empty `PublicMetricsURL` does the same
for `metricsPublicURL`. -/
theorem empty_optional_url_keeps_field (c : WebConsoleComponentOptions) (d : ConfigDocument)
    (ci : YamlMap) (hci : clusterInfoOf d = some ci) :
    ∃ d' ci', updateConfigValues c d = .ok d' ∧ clusterInfoOf d' = some ci' ∧
      (c.PublicLoggingURL = "" →
        mapGet ci' (key "loggingPublicURL") = mapGet ci (key "loggingPublicURL")) ∧
      (c.PublicMetricsURL = "" →
        mapGet ci' (key "metricsPublicURL") = mapGet ci (key "metricsPublicURL")) := by
  refine ⟨_, _, updateConfigValues_of_mapping c d ci hci, clusterInfoOf_mapSet d _, ?_, ?_⟩
  · intro hl
    rw [patchClusterInfo_logging, hl]
    simp [len_empty]
  · intro hm
    rw [patchClusterInfo_metrics, hm]
    simp [len_empty]

/-- C2 on the sample document with only the required URLs: the logging URL of the default
document stays, the metrics URL stays absent. -/
theorem empty_optional_url_keeps_field_witness :
    clusterInfoOf sampleDocument = some sampleClusterInfo ∧
    ∃ d' ci', updateConfigValues requiredOnly sampleDocument = .ok d' ∧
      clusterInfoOf d' = some ci' ∧
      (requiredOnly.PublicLoggingURL = "" →
        mapGet ci' (key "loggingPublicURL") = mapGet sampleClusterInfo (key "loggingPublicURL")) ∧
      (requiredOnly.PublicMetricsURL = "" →
        mapGet ci' (key "metricsPublicURL")
          = mapGet sampleClusterInfo (key "metricsPublicURL")) :=
  ⟨rfl, empty_optional_url_keeps_field requiredOnly sampleDocument sampleClusterInfo rfl⟩

/-- C3 as stated fails: with all four URLs set, `consolePublicURL` in the patched document is
`https://console:8443/`, which is not the override value `https://console:8443`. -/
theorem all_four_console_differs_from_override :
    allFour.PublicConsoleURL ≠ "" ∧ allFour.PublicMasterURL ≠ "" ∧
    allFour.PublicLoggingURL ≠ "" ∧ allFour.PublicMetricsURL ≠ "" ∧
    clusterInfoOf sampleDocument = some sampleClusterInfo ∧
    ∃ d' ci', updateConfigValues allFour sampleDocument = .ok d' ∧
      clusterInfoOf d' = some ci' ∧
      mapGet ci' (key "consolePublicURL") = some (Value.ofString "https://console:8443/") ∧
      mapGet ci' (key "consolePublicURL") ≠ some (Value.ofString allFour.PublicConsoleURL) := by
  refine ⟨by decide, by decide, by decide, by decide, rfl, _, _, rfl, rfl, rfl, ?_⟩
  intro h
  rw [patchClusterInfo_console] at h
  have hs : allFour.PublicConsoleURL ++ "/" = allFour.PublicConsoleURL := by
    simpa [Value.ofString] using h
  exact absurd hs (by decide)

/-- C3, amended: for every options value in which the four URLs are all non-empty, and every
default document whose `clusterInfo` is a mapping, after the patch `consolePublicURL` is
`PublicConsoleURL` followed by `/`, and `masterPublicURL`, `loggingPublicURL` and
`metricsPublicURL` equal `PublicMasterURL`, `PublicLoggingURL` and `PublicMetricsURL`. -/
theorem all_four_urls_take_precedence (c : WebConsoleComponentOptions) (d : ConfigDocument)
    (ci : YamlMap) (hci : clusterInfoOf d = some ci)
    (_hconsole : c.PublicConsoleURL ≠ "") (_hmaster : c.PublicMasterURL ≠ "")
    (hl : c.PublicLoggingURL ≠ "") (hm : c.PublicMetricsURL ≠ "") :
    ∃ d' ci', updateConfigValues c d = .ok d' ∧ clusterInfoOf d' = some ci' ∧
      mapGet ci' (key "consolePublicURL") = some (Value.ofString (c.PublicConsoleURL ++ "/")) ∧
      mapGet ci' (key "masterPublicURL") = some (Value.ofString c.PublicMasterURL) ∧
      mapGet ci' (key "loggingPublicURL") = some (Value.ofString c.PublicLoggingURL) ∧
      mapGet ci' (key "metricsPublicURL") = some (Value.ofString c.PublicMetricsURL) := by
  refine ⟨_, _, updateConfigValues_of_mapping c d ci hci, clusterInfoOf_mapSet d _,
    patchClusterInfo_console c ci, patchClusterInfo_master c ci, ?_, ?_⟩
  · rw [patchClusterInfo_logging, if_pos (len_pos_of_ne_empty _ hl)]
  · rw [patchClusterInfo_metrics, if_pos (len_pos_of_ne_empty _ hm)]

/-- The amended C3 on the sample document with all four URLs set. -/
theorem all_four_urls_take_precedence_witness :
    clusterInfoOf sampleDocument = some sampleClusterInfo ∧
    allFour.PublicConsoleURL ≠ "" ∧ allFour.PublicMasterURL ≠ "" ∧
    allFour.PublicLoggingURL ≠ "" ∧ allFour.PublicMetricsURL ≠ "" ∧
    ∃ d' ci', updateConfigValues allFour sampleDocument = .ok d' ∧
      clusterInfoOf d' = some ci' ∧
      mapGet ci' (key "consolePublicURL") = some (Value.ofString "https://console:8443/") ∧
      mapGet ci' (key "masterPublicURL") = some (Value.ofString "https://master:8443") ∧
      mapGet ci' (key "loggingPublicURL") = some (Value.ofString "https://kibana:8443") ∧
      mapGet ci' (key "metricsPublicURL") = some (Value.ofString "https://hawkular:8443") :=
  ⟨rfl, by decide, by decide, by decide, by decide,
    all_four_urls_take_precedence allFour sampleDocument sampleClusterInfo rfl
      (by decide) (by decide) (by decide) (by decide)⟩

/-- C8: for every options value and every default document whose `clusterInfo` is a mapping,
the patch keeps the value of every top-level key other than `clusterInfo`, keeps the list of
top-level keys (none added, none removed), and keeps the lookup of every key of `clusterInfo`
other than `consolePublicURL`, `masterPublicURL`, `loggingPublicURL` and `metricsPublicURL`
(same value, or still absent). -/
theorem patch_frame (c : WebConsoleComponentOptions) (d : ConfigDocument)
    (ci : YamlMap) (hci : clusterInfoOf d = some ci) :
    ∃ d' ci', updateConfigValues c d = .ok d' ∧ clusterInfoOf d' = some ci' ∧
      (∀ k : String, k ≠ "clusterInfo" → mapGet d' k = mapGet d k) ∧
      mapKeys d' = mapKeys d ∧
      (∀ k : Scalar, k ≠ key "consolePublicURL" → k ≠ key "masterPublicURL" →
        k ≠ key "loggingPublicURL" → k ≠ key "metricsPublicURL" →
        mapGet ci' k = mapGet ci k) := by
  refine ⟨_, _, updateConfigValues_of_mapping c d ci hci, clusterInfoOf_mapSet d _, ?_, ?_, ?_⟩
  · intro k hk
    exact mapGet_mapSet_ne d "clusterInfo" k _ hk
  · exact mapKeys_mapSet_of_present d "clusterInfo" _ _ ((clusterInfoOf_eq_some d ci).1 hci)
  · intro k h1 h2 h3 h4
    exact patchClusterInfo_other c ci k h1 h2 h3 h4

/-- C8 on the sample document with all four URLs set: the top-level keys are the same three,
`apiVersion` and `extensions` keep their values, and `logoutPublicURL` keeps its value. -/
theorem patch_frame_witness :
    clusterInfoOf sampleDocument = some sampleClusterInfo ∧
    ∃ d' ci', updateConfigValues allFour sampleDocument = .ok d' ∧
      clusterInfoOf d' = some ci' ∧
      (∀ k : String, k ≠ "clusterInfo" → mapGet d' k = mapGet sampleDocument k) ∧
      mapKeys d' = mapKeys sampleDocument ∧
      (∀ k : Scalar, k ≠ key "consolePublicURL" → k ≠ key "masterPublicURL" →
        k ≠ key "loggingPublicURL" → k ≠ key "metricsPublicURL" →
        mapGet ci' k = mapGet sampleClusterInfo k) :=
  ⟨rfl, patch_frame allFour sampleDocument sampleClusterInfo rfl⟩

/-- C10: for every options value `c` and every document `d` whose `clusterInfo` is a mapping,
the patch succeeds on `d`, succeeds again on its own result, and the second result is the
first one; the `/` after the console URL is not added a second time. -/
theorem patch_idempotent (c : WebConsoleComponentOptions) (d : ConfigDocument)
    (ci : YamlMap) (hci : clusterInfoOf d = some ci) :
    ∃ d' ci', updateConfigValues c d = .ok d' ∧ updateConfigValues c d' = .ok d' ∧
      clusterInfoOf d' = some ci' ∧
      mapGet ci' (key "consolePublicURL") = some (Value.ofString (c.PublicConsoleURL ++ "/")) := by
  refine ⟨_, _, updateConfigValues_of_mapping c d ci hci, ?_, clusterInfoOf_mapSet d _,
    patchClusterInfo_console c ci⟩
  rw [updateConfigValues_of_mapping c _ _ (clusterInfoOf_mapSet d _), patchClusterInfo_idem]
  congr 1
  exact mapSet_eq_self _ _ _ (mapGet_mapSet_same d "clusterInfo" _)

/-- C10 on the sample document with all four URLs set. -/
theorem patch_idempotent_witness :
    clusterInfoOf sampleDocument = some sampleClusterInfo ∧
    ∃ d' ci', updateConfigValues allFour sampleDocument = .ok d' ∧
      updateConfigValues allFour d' = .ok d' ∧ clusterInfoOf d' = some ci' ∧
      mapGet ci' (key "consolePublicURL") = some (Value.ofString "https://console:8443/") :=
  ⟨rfl, patch_idempotent allFour sampleDocument sampleClusterInfo rfl⟩

/-! ## The readiness predicate -/

/-- C5: for every successful lookup of the deployment `webconsole` in `openshift-web-console`,
the wait condition returns `(true, nil)` exactly when `Status.ReadyReplicas` is at least 1 and
`(false, nil)` otherwise; and for no lookup at all does it return `true` together with an
error. -/
theorem waitCondition_ready_iff (kubeClient : KubeClient) (get : DeploymentLookup)
    (ds : Deployment) (hget : get kubeClient consoleNamespace "webconsole" = .ok ds) :
    (WaitCondition kubeClient get = (true, none) ↔ 1 ≤ ds.Status.ReadyReplicas) ∧
    (¬ 1 ≤ ds.Status.ReadyReplicas → WaitCondition kubeClient get = (false, none)) ∧
    (∀ (get' : DeploymentLookup) (err : GoError),
      WaitCondition kubeClient get' ≠ (true, some err)) := by
  refine ⟨?_, ?_, ?_⟩
  · unfold WaitCondition
    rw [hget]
    by_cases hpos : ds.Status.ReadyReplicas > 0
    · simp only [hpos, if_true, true_iff]
      omega
    · simp only [hpos, if_false, Prod.mk.injEq, Bool.false_eq_true, false_and, false_iff]
      omega
  · intro hnot
    unfold WaitCondition
    rw [hget]
    have hpos : ¬ ds.Status.ReadyReplicas > 0 := by omega
    simp only [hpos, if_false]
  · intro get' err
    unfold WaitCondition
    split
    · simp
    · split <;> simp

/-- C5 with one ready replica: the wait condition returns `(true, nil)`. -/
theorem waitCondition_ready_iff_witness :
    lookupWithReady 1 sampleClient consoleNamespace "webconsole" = .ok ⟨⟨1⟩⟩ ∧
    WaitCondition sampleClient (lookupWithReady 1) = (true, none) ∧
    ((WaitCondition sampleClient (lookupWithReady 1) = (true, none) ↔
        1 ≤ (Deployment.mk ⟨1⟩).Status.ReadyReplicas) ∧
      (¬ 1 ≤ (Deployment.mk ⟨1⟩).Status.ReadyReplicas →
        WaitCondition sampleClient (lookupWithReady 1) = (false, none)) ∧
      (∀ (get' : DeploymentLookup) (err : GoError),
        WaitCondition sampleClient get' ≠ (true, some err))) :=
  ⟨rfl, rfl, waitCondition_ready_iff sampleClient (lookupWithReady 1) ⟨⟨1⟩⟩ rfl⟩

/-- C6 as stated fails: when the lookup answers with the not-found status error, the wait
condition returns `false` together with that error, not `(false, nil)`. -/
theorem waitCondition_not_found_is_returned :
    deploymentNotFound.isNotFound = true ∧
    lookupNotFound sampleClient consoleNamespace "webconsole" = .error deploymentNotFound ∧
    WaitCondition sampleClient lookupNotFound = (false, some deploymentNotFound) ∧
    WaitCondition sampleClient lookupNotFound ≠ (false, none) := by
  refine ⟨by decide, rfl, rfl, ?_⟩
  decide

/-- C6, amended: when the lookup of the deployment fails, with a not-found error or any other,
the wait condition returns `false` together with that same error. -/
theorem waitCondition_propagates_lookup_error (kubeClient : KubeClient)
    (get : DeploymentLookup) (err : GoError)
    (hget : get kubeClient consoleNamespace "webconsole" = .error err) :
    WaitCondition kubeClient get = (false, some err) := by
  unfold WaitCondition
  rw [hget]

/-- The amended C6 on the not-found error. -/
theorem waitCondition_propagates_lookup_error_witness :
    lookupNotFound sampleClient consoleNamespace "webconsole" = .error deploymentNotFound ∧
    WaitCondition sampleClient lookupNotFound = (false, some deploymentNotFound) :=
  ⟨rfl, waitCondition_propagates_lookup_error sampleClient lookupNotFound deploymentNotFound rfl⟩

/-! ## Names -/

/-- C9 as stated fails: `Name()` is `openshift-web-console`, the install template's resource
name is `webconsole`. -/
theorem name_differs_from_template_name :
    requiredOnly.Name = "openshift-web-console" ∧
    (component (sampleEnv sampleDocument) sampleClient).Name = "webconsole" ∧
    requiredOnly.Name ≠ (component (sampleEnv sampleDocument) sampleClient).Name := by
  refine ⟨rfl, rfl, ?_⟩
  decide

/-- C9, amended: `Name()` returns `openshift-web-console`, which is the namespace of the
install template and not its resource name; the template's resource name is `webconsole`, and
the wait condition of the template looks up the deployment of that name in that namespace: its
result is `(false, err)` on a failed lookup, and otherwise `true` or `false` without error as
the deployment has a ready replica or not. -/
theorem name_and_template_name (env : Env) (c : WebConsoleComponentOptions)
    (kubeClient : KubeClient) :
    c.Name = "openshift-web-console" ∧
    (component env kubeClient).Name = "webconsole" ∧
    c.Name ≠ (component env kubeClient).Name ∧
    c.Name = (component env kubeClient).Namespace ∧
    ∀ get : DeploymentLookup,
      (component env kubeClient).WaitCondition get =
        match get kubeClient (component env kubeClient).Namespace
            (component env kubeClient).Name with
        | .error err => (false, some err)
        | .ok ds => (decide (ds.Status.ReadyReplicas > 0), none) := by
  have hne : "openshift-web-console" ≠ "webconsole" := by decide
  refine ⟨rfl, rfl, hne, rfl, ?_⟩
  intro get
  show WaitCondition kubeClient get = _
  unfold WaitCondition
  show (match get kubeClient consoleNamespace "webconsole" with
      | .error err => (false, some err)
      | .ok ds => if ds.Status.ReadyReplicas > 0 then (true, none) else (false, none))
    = (match get kubeClient consoleNamespace "webconsole" with
      | .error err => (false, some err)
      | .ok ds => (decide (ds.Status.ReadyReplicas > 0), none))
  cases get kubeClient consoleNamespace "webconsole" with
  | error err => rfl
  | ok ds =>
    by_cases hpos : ds.Status.ReadyReplicas > 0 <;> simp [hpos]

/-! ## Decimal rendering -/

theorem digitChar_value (k : Nat) (hk : k < 10) : (Nat.digitChar k).toNat - 48 = k := by
  interval_cases k <;> rfl

theorem digitChar_isDigit (k : Nat) (hk : k < 10) : (Nat.digitChar k).isDigit = true := by
  interval_cases k <;> rfl

theorem toDigitsCore_value (fuel : Nat) : ∀ (n : Nat) (ds : List Char), n < fuel →
    (Nat.toDigitsCore 10 fuel n ds).foldl (fun acc ch => acc * 10 + (ch.toNat - 48)) 0
      = ds.foldl (fun acc ch => acc * 10 + (ch.toNat - 48)) n := by
  induction fuel with
  | zero => intro n ds h; omega
  | succ fuel ih =>
    intro n ds hn
    have hmod : n % 10 < 10 := Nat.mod_lt _ (by decide)
    simp only [Nat.toDigitsCore]
    by_cases hq : n / 10 = 0
    · simp only [hq, if_true, List.foldl_cons, Nat.zero_mul, Nat.zero_add, digitChar_value _ hmod]
      have hsmall : n % 10 = n := by omega
      rw [hsmall]
    · simp only [hq, if_false]
      rw [ih (n / 10) _ (by omega)]
      simp only [List.foldl_cons, digitChar_value _ hmod]
      have hsplit : n / 10 * 10 + n % 10 = n := by omega
      rw [hsplit]

theorem toDigitsCore_isDigit (fuel : Nat) : ∀ (n : Nat) (ds : List Char),
    (∀ ch ∈ ds, ch.isDigit = true) →
    ∀ ch ∈ Nat.toDigitsCore 10 fuel n ds, ch.isDigit = true := by
  induction fuel with
  | zero => intro n ds h; simpa [Nat.toDigitsCore] using h
  | succ fuel ih =>
    intro n ds hds
    have hmod : n % 10 < 10 := Nat.mod_lt _ (by decide)
    have hcons : ∀ ch ∈ Nat.digitChar (n % 10) :: ds, ch.isDigit = true := by
      intro ch hch
      rcases List.mem_cons.1 hch with h | h
      · rw [h]; exact digitChar_isDigit _ hmod
      · exact hds ch h
    simp only [Nat.toDigitsCore]
    by_cases hq : n / 10 = 0
    · simpa only [hq, if_true] using hcons
    · simp only [hq, if_false]
      exact ih _ _ hcons

theorem repr_value (n : Nat) : decimalValue (Nat.repr n).data = n := by
  show decimalValue (Nat.toDigits 10 n) = n
  unfold decimalValue Nat.toDigits
  rw [toDigitsCore_value (n + 1) n [] (by omega)]
  rfl

theorem repr_isDigit (n : Nat) : ∀ ch ∈ (Nat.repr n).data, ch.isDigit = true := by
  show ∀ ch ∈ Nat.toDigits 10 n, ch.isDigit = true
  exact toDigitsCore_isDigit _ _ _ (by simp)

theorem sprintfD_decimal (n : Int) :
    ∃ digits : List Char,
      sprintfD n = (if n < 0 then "-" else "") ++ String.mk digits ∧
      (∀ ch ∈ digits, ch.isDigit = true) ∧ decimalValue digits = n.natAbs := by
  refine ⟨(Nat.repr n.natAbs).data, ?_, repr_isDigit _, repr_value _⟩
  unfold sprintfD
  by_cases hneg : n < 0
  · simp only [hneg, if_true]
  · simp only [hneg, if_false]
    show Nat.repr n.natAbs = "" ++ Nat.repr n.natAbs
    simp

/-! ## Runs of `Install` -/

theorem clusterInfoOf_eq_none (d : ConfigDocument) :
    clusterInfoOf d = none ↔
      (mapGet d "clusterInfo" = none ∨
        ∃ v, mapGet d "clusterInfo" = some v ∧ ∀ m, v ≠ Value.map m) := by
  unfold clusterInfoOf
  split
  · next ci heq =>
    constructor
    · intro h; cases h
    · intro h
      rcases h with h | ⟨v, hv, hnot⟩
      · rw [heq] at h; cases h
      · rw [heq] at hv
        cases hv
        exact absurd rfl (hnot ci)
  · next hnot =>
    constructor
    · intro _
      cases hget : mapGet d "clusterInfo" with
      | none => exact Or.inl rfl
      | some v =>
        refine Or.inr ⟨v, rfl, ?_⟩
        intro m hm
        rw [hm] at hget
        exact hnot m hget
    · intro _; rfl

theorem updateConfigValues_of_missing (c : WebConsoleComponentOptions) (d : ConfigDocument)
    (hnone : clusterInfoOf d = none) :
    updateConfigValues c d
      = .error (.newError "cannot read clusterInfo in web console config") := by
  simp [updateConfigValues, hnone]

theorem install_stops_at_clusterInfo (env : Env) (c : WebConsoleComponentOptions)
    (dockerClient : DockerClient) (logdir : String)
    (kubeconfig : Bytes) (restConfig : RestConfig) (kubeClient : KubeClient)
    (d : ConfigDocument)
    (h1 : env.readFile c.MasterConfigDir "admin.kubeconfig" = .ok kubeconfig)
    (h2 : env.restConfigFromKubeConfig kubeconfig = .ok restConfig)
    (h3 : env.newForConfig restConfig = .ok kubeClient)
    (h4 : env.yamlUnmarshal (env.mustAsset "install/origin-web-console/console-config.yaml")
      = .ok d)
    (hnone : clusterInfoOf d = none) :
    c.Install env dockerClient logdir =
      ⟨[.readFile c.MasterConfigDir "admin.kubeconfig", .restConfigFromKubeConfig kubeconfig,
        .newForConfig restConfig,
        .yamlUnmarshal (env.mustAsset "install/origin-web-console/console-config.yaml")],
       .returned (some (.newError "cannot read clusterInfo in web console config"))⟩ := by
  simp [WebConsoleComponentOptions.Install, h1, h2, h3, h4,
    updateConfigValues_of_missing c d hnone]

theorem install_after_patch (env : Env) (c : WebConsoleComponentOptions)
    (dockerClient : DockerClient) (logdir : String)
    (kubeconfig : Bytes) (restConfig : RestConfig) (kubeClient : KubeClient)
    (d : ConfigDocument) (ci : YamlMap)
    (h1 : env.readFile c.MasterConfigDir "admin.kubeconfig" = .ok kubeconfig)
    (h2 : env.restConfigFromKubeConfig kubeconfig = .ok restConfig)
    (h3 : env.newForConfig restConfig = .ok kubeClient)
    (h4 : env.yamlUnmarshal (env.mustAsset "install/origin-web-console/console-config.yaml")
      = .ok d)
    (hci : clusterInfoOf d = some ci) :
    c.Install env dockerClient logdir =
      match env.yamlMarshal (mapSet d "clusterInfo" (.map (patchClusterInfo c ci))) with
      | .error err =>
        ⟨[.readFile c.MasterConfigDir "admin.kubeconfig", .restConfigFromKubeConfig kubeconfig,
          .newForConfig restConfig,
          .yamlUnmarshal (env.mustAsset "install/origin-web-console/console-config.yaml"),
          .yamlMarshal (mapSet d "clusterInfo" (.map (patchClusterInfo c ci)))],
         .returned (some (.withCause "cannot serialize web console config" err))⟩
      | .ok updatedConfig =>
        match env.expandOrDie (imageTemplate env c) "web-console" with
        | none =>
          ⟨[.readFile c.MasterConfigDir "admin.kubeconfig",
            .restConfigFromKubeConfig kubeconfig, .newForConfig restConfig,
            .yamlUnmarshal (env.mustAsset "install/origin-web-console/console-config.yaml"),
            .yamlMarshal (mapSet d "clusterInfo" (.map (patchClusterInfo c ci))),
            .expandOrDie (imageTemplate env c) "web-console"],
           .exited⟩
        | some image =>
          ⟨[.readFile c.MasterConfigDir "admin.kubeconfig",
            .restConfigFromKubeConfig kubeconfig, .newForConfig restConfig,
            .yamlUnmarshal (env.mustAsset "install/origin-web-console/console-config.yaml"),
            .yamlMarshal (mapSet d "clusterInfo" (.map (patchClusterInfo c ci))),
            .expandOrDie (imageTemplate env c) "web-console",
            .makeReadyInstall (component env kubeClient) c.OCImage kubeconfig
              (params c updatedConfig image) dockerClient logdir],
           .returned (env.makeReadyInstall (component env kubeClient) c.OCImage kubeconfig
              (params c updatedConfig image) dockerClient logdir)⟩ := by
  simp only [WebConsoleComponentOptions.Install, h1, h2, h3, h4,
    updateConfigValues_of_mapping c d ci hci]
  cases env.yamlMarshal (mapSet d "clusterInfo" (.map (patchClusterInfo c ci))) with
  | error err => simp
  | ok updatedConfig =>
    cases env.expandOrDie (imageTemplate env c) "web-console" with
    | none => simp
    | some image => simp

theorem install_calls_of_mapping (env : Env) (c : WebConsoleComponentOptions)
    (dockerClient : DockerClient) (logdir : String)
    (kubeconfig : Bytes) (restConfig : RestConfig) (kubeClient : KubeClient)
    (d : ConfigDocument) (ci : YamlMap)
    (h1 : env.readFile c.MasterConfigDir "admin.kubeconfig" = .ok kubeconfig)
    (h2 : env.restConfigFromKubeConfig kubeconfig = .ok restConfig)
    (h3 : env.newForConfig restConfig = .ok kubeClient)
    (h4 : env.yamlUnmarshal (env.mustAsset "install/origin-web-console/console-config.yaml")
      = .ok d)
    (hci : clusterInfoOf d = some ci) :
    ∃ rest, (c.Install env dockerClient logdir).calls =
      [.readFile c.MasterConfigDir "admin.kubeconfig", .restConfigFromKubeConfig kubeconfig,
        .newForConfig restConfig,
        .yamlUnmarshal (env.mustAsset "install/origin-web-console/console-config.yaml")]
      ++ .yamlMarshal (mapSet d "clusterInfo" (.map (patchClusterInfo c ci))) :: rest := by
  rw [install_after_patch env c dockerClient logdir kubeconfig restConfig kubeClient d ci
    h1 h2 h3 h4 hci]
  cases env.yamlMarshal (mapSet d "clusterInfo" (.map (patchClusterInfo c ci))) with
  | error err => exact ⟨_, rfl⟩
  | ok updatedConfig =>
    cases env.expandOrDie (imageTemplate env c) "web-console" with
    | none => exact ⟨_, rfl⟩
    | some image => exact ⟨_, rfl⟩

theorem install_outcome_of_mapping (env : Env) (c : WebConsoleComponentOptions)
    (dockerClient : DockerClient) (logdir : String)
    (kubeconfig : Bytes) (restConfig : RestConfig) (kubeClient : KubeClient)
    (d : ConfigDocument) (ci : YamlMap)
    (h1 : env.readFile c.MasterConfigDir "admin.kubeconfig" = .ok kubeconfig)
    (h2 : env.restConfigFromKubeConfig kubeconfig = .ok restConfig)
    (h3 : env.newForConfig restConfig = .ok kubeClient)
    (h4 : env.yamlUnmarshal (env.mustAsset "install/origin-web-console/console-config.yaml")
      = .ok d)
    (hci : clusterInfoOf d = some ci) (msg : String)
    (hout : (c.Install env dockerClient logdir).outcome = .returned (some (.newError msg))) :
    ∃ t ocImage kc p l,
      env.makeReadyInstall t ocImage kc p dockerClient l = some (.newError msg) := by
  rw [install_after_patch env c dockerClient logdir kubeconfig restConfig kubeClient d ci
    h1 h2 h3 h4 hci] at hout
  cases hm : env.yamlMarshal (mapSet d "clusterInfo" (.map (patchClusterInfo c ci))) with
  | error err =>
    rw [hm] at hout
    simp at hout
  | ok updatedConfig =>
    rw [hm] at hout
    cases he : env.expandOrDie (imageTemplate env c) "web-console" with
    | none =>
      rw [he] at hout
      simp at hout
    | some image =>
      rw [he] at hout
      simp only [Outcome.returned.injEq] at hout
      exact ⟨_, _, _, _, _, hout⟩

/-! ## Properties of `Install` -/

/-- C4: once the credentials were read, the API client was built and the default document `d`
was parsed, `Install` stops at the `clusterInfo` check, returning the error "cannot read
clusterInfo in web console config" without marshalling, expanding the image or submitting the
template, if and only if `d` has no `clusterInfo` key or its value is not a mapping. In that
case the run consists of the four calls up to parsing. In the opposite case the patch step
succeeds and its result is handed to the marshaller. If the installation of the template
never returns that error itself, `Install` returns it exactly in the first case. -/
theorem install_fails_iff_clusterInfo_unreadable (env : Env) (c : WebConsoleComponentOptions)
    (dockerClient : DockerClient) (logdir : String)
    (kubeconfig : Bytes) (restConfig : RestConfig) (kubeClient : KubeClient)
    (d : ConfigDocument)
    (h1 : env.readFile c.MasterConfigDir "admin.kubeconfig" = .ok kubeconfig)
    (h2 : env.restConfigFromKubeConfig kubeconfig = .ok restConfig)
    (h3 : env.newForConfig restConfig = .ok kubeClient)
    (h4 : env.yamlUnmarshal (env.mustAsset "install/origin-web-console/console-config.yaml")
      = .ok d) :
    (((c.Install env dockerClient logdir).outcome
          = .returned (some (.newError "cannot read clusterInfo in web console config")) ∧
        ∀ call ∈ (c.Install env dockerClient logdir).calls, call.afterPatch = false) ↔
      (mapGet d "clusterInfo" = none ∨
        ∃ v, mapGet d "clusterInfo" = some v ∧ ∀ m, v ≠ Value.map m)) ∧
    ((mapGet d "clusterInfo" = none ∨
        ∃ v, mapGet d "clusterInfo" = some v ∧ ∀ m, v ≠ Value.map m) →
      (c.Install env dockerClient logdir).calls =
        [.readFile c.MasterConfigDir "admin.kubeconfig", .restConfigFromKubeConfig kubeconfig,
          .newForConfig restConfig,
          .yamlUnmarshal (env.mustAsset "install/origin-web-console/console-config.yaml")] ∧
      ∀ call ∈ (c.Install env dockerClient logdir).calls, call.submitted = none) ∧
    (∀ ci, mapGet d "clusterInfo" = some (.map ci) →
      ∃ d', updateConfigValues c d = .ok d' ∧
        ∃ rest, (c.Install env dockerClient logdir).calls =
          [.readFile c.MasterConfigDir "admin.kubeconfig",
            .restConfigFromKubeConfig kubeconfig, .newForConfig restConfig,
            .yamlUnmarshal (env.mustAsset "install/origin-web-console/console-config.yaml")]
          ++ .yamlMarshal d' :: rest) ∧
    ((∀ t ocImage kc p l, env.makeReadyInstall t ocImage kc p dockerClient l
        ≠ some (.newError "cannot read clusterInfo in web console config")) →
      ((c.Install env dockerClient logdir).outcome
          = .returned (some (.newError "cannot read clusterInfo in web console config")) ↔
        (mapGet d "clusterInfo" = none ∨
          ∃ v, mapGet d "clusterInfo" = some v ∧ ∀ m, v ≠ Value.map m))) := by
  have hstop : clusterInfoOf d = none → c.Install env dockerClient logdir = _ :=
    install_stops_at_clusterInfo env c dockerClient logdir kubeconfig restConfig kubeClient d
      h1 h2 h3 h4
  refine ⟨⟨?_, ?_⟩, ?_, ?_, ?_⟩
  · rintro ⟨_, hcalls⟩
    rw [← clusterInfoOf_eq_none]
    cases hci : clusterInfoOf d with
    | none => rfl
    | some ci =>
      obtain ⟨rest, hrest⟩ := install_calls_of_mapping env c dockerClient logdir kubeconfig
        restConfig kubeClient d ci h1 h2 h3 h4 hci
      have hfalse := hcalls (.yamlMarshal (mapSet d "clusterInfo" (.map (patchClusterInfo c ci))))
        (by rw [hrest]; simp)
      simp [Call.afterPatch] at hfalse
  · intro hmiss
    rw [hstop ((clusterInfoOf_eq_none d).2 hmiss)]
    refine ⟨rfl, ?_⟩
    intro call hcall
    simp only [List.mem_cons, List.mem_singleton, List.not_mem_nil, or_false] at hcall
    rcases hcall with h | h | h | h <;> rw [h] <;> rfl
  · intro hmiss
    rw [hstop ((clusterInfoOf_eq_none d).2 hmiss)]
    refine ⟨rfl, ?_⟩
    intro call hcall
    simp only [List.mem_cons, List.mem_singleton, List.not_mem_nil, or_false] at hcall
    rcases hcall with h | h | h | h <;> rw [h] <;> rfl
  · intro ci hget
    have hci : clusterInfoOf d = some ci := (clusterInfoOf_eq_some d ci).2 hget
    exact ⟨_, updateConfigValues_of_mapping c d ci hci,
      install_calls_of_mapping env c dockerClient logdir kubeconfig restConfig kubeClient d ci
        h1 h2 h3 h4 hci⟩
  · intro henv
    constructor
    · intro hout
      rw [← clusterInfoOf_eq_none]
      cases hci : clusterInfoOf d with
      | none => rfl
      | some ci =>
        obtain ⟨t, ocImage, kc, p, l, hsame⟩ := install_outcome_of_mapping env c dockerClient
          logdir kubeconfig restConfig kubeClient d ci h1 h2 h3 h4 hci _ hout
        exact absurd hsame (henv t ocImage kc p l)
    · intro hmiss
      rw [hstop ((clusterInfoOf_eq_none d).2 hmiss)]

/-- C4 on a default document without `clusterInfo` and on one whose `clusterInfo` is a
string, all earlier stages succeeding: `Install` returns the error after four calls. -/
theorem install_fails_iff_clusterInfo_unreadable_witness :
    ((sampleEnv documentWithoutClusterInfo).readFile requiredOnly.MasterConfigDir
        "admin.kubeconfig"
        = .ok "kubeconfig in /var/lib/origin/openshift.local.config/master" ∧
      (sampleEnv documentWithoutClusterInfo).restConfigFromKubeConfig
        "kubeconfig in /var/lib/origin/openshift.local.config/master"
        = .ok ⟨"https://master:8443"⟩ ∧
      (sampleEnv documentWithoutClusterInfo).newForConfig ⟨"https://master:8443"⟩
        = .ok sampleClient ∧
      (sampleEnv documentWithoutClusterInfo).yamlUnmarshal
        ((sampleEnv documentWithoutClusterInfo).mustAsset
          "install/origin-web-console/console-config.yaml")
        = .ok documentWithoutClusterInfo) ∧
    mapGet documentWithoutClusterInfo "clusterInfo" = none ∧
    (requiredOnly.Install (sampleEnv documentWithoutClusterInfo) sampleDocker "/tmp/logs").outcome
      = .returned (some (.newError "cannot read clusterInfo in web console config")) ∧
    (requiredOnly.Install (sampleEnv documentWithoutClusterInfo) sampleDocker
      "/tmp/logs").calls.length = 4 ∧
    mapGet documentWithScalarClusterInfo "clusterInfo" = some (Value.ofString "none") ∧
    (requiredOnly.Install (sampleEnv documentWithScalarClusterInfo) sampleDocker
      "/tmp/logs").outcome
      = .returned (some (.newError "cannot read clusterInfo in web console config")) :=
  ⟨⟨rfl, rfl, rfl, rfl⟩, rfl,
    ((install_fails_iff_clusterInfo_unreadable (sampleEnv documentWithoutClusterInfo)
      requiredOnly sampleDocker "/tmp/logs"
      "kubeconfig in /var/lib/origin/openshift.local.config/master" ⟨"https://master:8443"⟩
      sampleClient documentWithoutClusterInfo rfl rfl rfl rfl).1.2 (Or.inl rfl)).1,
    rfl, rfl,
    ((install_fails_iff_clusterInfo_unreadable (sampleEnv documentWithScalarClusterInfo)
      requiredOnly sampleDocker "/tmp/logs"
      "kubeconfig in /var/lib/origin/openshift.local.config/master" ⟨"https://master:8443"⟩
      sampleClient documentWithScalarClusterInfo rfl rfl rfl rfl).1.2
        (Or.inr ⟨Value.ofString "none", rfl, fun m h => by cases h⟩)).1⟩

/-- C7: when the stages up to the patch succeed, the patched document marshals to `text` and
the image template with `Format = ImageFormat` and `Latest = false` expands to `image` for the
component `web-console`, `Install` submits the template with a parameter map whose keys are
exactly `API_SERVER_CONFIG`, `IMAGE`, `LOGLEVEL` and `NAMESPACE`, holding `text`, `image`, the
base-10 rendering of `ServerLogLevel` (decimal digits of its magnitude, after `-` when it is
negative) and `openshift-web-console`; and it returns what that installation returns. -/
theorem install_parameter_map (env : Env) (c : WebConsoleComponentOptions)
    (dockerClient : DockerClient) (logdir : String)
    (kubeconfig : Bytes) (restConfig : RestConfig) (kubeClient : KubeClient)
    (d d' : ConfigDocument) (text : Bytes) (image : String)
    (h1 : env.readFile c.MasterConfigDir "admin.kubeconfig" = .ok kubeconfig)
    (h2 : env.restConfigFromKubeConfig kubeconfig = .ok restConfig)
    (h3 : env.newForConfig restConfig = .ok kubeClient)
    (h4 : env.yamlUnmarshal (env.mustAsset "install/origin-web-console/console-config.yaml")
      = .ok d)
    (h5 : updateConfigValues c d = .ok d')
    (h6 : env.yamlMarshal d' = .ok text)
    (h7 : env.expandOrDie
      { env.newDefaultImageTemplate with Format := c.ImageFormat, Latest := false }
      "web-console" = some image) :
    ∃ p : Params,
      (c.Install env dockerClient logdir).calls =
        [.readFile c.MasterConfigDir "admin.kubeconfig", .restConfigFromKubeConfig kubeconfig,
          .newForConfig restConfig,
          .yamlUnmarshal (env.mustAsset "install/origin-web-console/console-config.yaml"),
          .yamlMarshal d',
          .expandOrDie
            { env.newDefaultImageTemplate with Format := c.ImageFormat, Latest := false }
            "web-console",
          .makeReadyInstall (component env kubeClient) c.OCImage kubeconfig p
            dockerClient logdir] ∧
      (c.Install env dockerClient logdir).outcome =
        .returned (env.makeReadyInstall (component env kubeClient) c.OCImage kubeconfig p
          dockerClient logdir) ∧
      mapKeys p = ["API_SERVER_CONFIG", "IMAGE", "LOGLEVEL", "NAMESPACE"] ∧
      mapGet p "API_SERVER_CONFIG" = some text ∧
      mapGet p "IMAGE" = some image ∧
      mapGet p "LOGLEVEL" = some (sprintfD c.ServerLogLevel) ∧
      mapGet p "NAMESPACE" = some "openshift-web-console" ∧
      ∃ digits : List Char,
        sprintfD c.ServerLogLevel
          = (if c.ServerLogLevel < 0 then "-" else "") ++ String.mk digits ∧
        (∀ ch ∈ digits, ch.isDigit = true) ∧
        decimalValue digits = c.ServerLogLevel.natAbs := by
  cases hci : clusterInfoOf d with
  | none =>
    rw [updateConfigValues_of_missing c d hci] at h5
    cases h5
  | some ci =>
    rw [updateConfigValues_of_mapping c d ci hci] at h5
    cases h5
    have h7' : env.expandOrDie (imageTemplate env c) "web-console" = some image := h7
    have hrun := install_after_patch env c dockerClient logdir kubeconfig restConfig
      kubeClient d ci h1 h2 h3 h4 hci
    rw [h6] at hrun
    simp only [h7'] at hrun
    refine ⟨params c text image, ?_, ?_, rfl, rfl, rfl, rfl, rfl,
      sprintfD_decimal c.ServerLogLevel⟩
    · rw [hrun]
      rfl
    · rw [hrun]

/-- C7 on the sample document with all four URLs and log level `-2`: the parameter map is
submitted and `LOGLEVEL` is `-2`. -/
theorem install_parameter_map_witness :
    ∃ p : Params,
      (allFour.Install (sampleEnv sampleDocument) sampleDocker "/tmp/logs").calls.getLast?.bind
        Call.submitted = some p ∧
      (allFour.Install (sampleEnv sampleDocument) sampleDocker "/tmp/logs").outcome
        = .returned none ∧
      mapKeys p = ["API_SERVER_CONFIG", "IMAGE", "LOGLEVEL", "NAMESPACE"] ∧
      mapGet p "API_SERVER_CONFIG" = some "apiVersion,clusterInfo,extensions" ∧
      mapGet p "IMAGE" = some "openshift/origin-${component}:${version} for web-console" ∧
      mapGet p "LOGLEVEL" = some "-2" ∧
      mapGet p "NAMESPACE" = some "openshift-web-console" := by
  obtain ⟨p, hcalls, hout, hkeys, hconfig, himage, hlevel, hns, _⟩ :=
    install_parameter_map (sampleEnv sampleDocument) allFour sampleDocker "/tmp/logs"
      "kubeconfig in /var/lib/origin/openshift.local.config/master" ⟨"https://master:8443"⟩
      sampleClient sampleDocument
      (mapSet sampleDocument "clusterInfo" (.map (patchClusterInfo allFour sampleClusterInfo)))
      "apiVersion,clusterInfo,extensions"
      "openshift/origin-${component}:${version} for web-console"
      rfl rfl rfl rfl rfl rfl rfl
  refine ⟨p, ?_, ?_, hkeys, hconfig, himage, ?_, hns⟩
  · rw [hcalls]
    rfl
  · rw [hout]
    rfl
  · rw [hlevel]
    rfl

end WebConsole
